import Mathlib

/-!
Verification of the PME GPU pipeline orchestration layer of the GROMACS
ewald module (pme_gpu.cpp), shallowly embedded in Lean.

The C++ real scalars are modelled as rationals: the only operations the
properties below depend on are exact comparison and addition, which the
rationals share with any machine-float semantics. GPU launches and the
stream are modelled as an explicit trace of enqueued operations; the
wallcycle timing calls have no observable effect on the properties and are
omitted.
-/

/-- The PME run mode stored in a gmx_pme_t structure. -/
inductive PmeRunMode
  | CPU
  | Mixed
  | GPU
  deriving DecidableEq

/-- Grid traversal orderings accepted by the reciprocal-space solve kernel. -/
inductive GridOrdering
  | XYZ
  | YZX
  | ZYX
  deriving DecidableEq

/-- Completion kinds of pme_gpu_try_finish_task. -/
inductive GpuTaskCompletion
  | Wait
  | Check
  deriving DecidableEq

/-- The FFT directions (gmx_fft_direction). -/
inductive FftDir
  | realToComplex
  | complexToReal
  deriving DecidableEq

/-- The fixed configuration flags of PmeGpuSettings. -/
structure PmeGpuSettings where
  performGPUFFT : Bool
  performGPUSolve : Bool
  performGPUGather : Bool
  useGpuForceReduction : Bool
  useDecomposition : Bool
  deriving DecidableEq

/-- The per-step workload flags (gmx StepWorkload) the pipeline reads. -/
structure StepWorkload where
  haveDynamicBox : Bool
  computeEnergy : Bool
  computeVirial : Bool
  useGpuPmeFReduction : Bool
  deriving DecidableEq

/-- A 3x3 matrix of real values (the matrix type of the box). -/
def Matrix3 : Type := Fin 3 → Fin 3 → Rat

/-- A 3-vector of reals (gmx RVec). -/
def RVec : Type := Rat × Rat × Rat

instance : Add RVec := inferInstanceAs (Add (Rat × Rat × Rat))

instance : DecidableEq RVec := inferInstanceAs (DecidableEq (Rat × Rat × Rat))

instance : DecidableEq Matrix3 := inferInstanceAs (DecidableEq (Fin 3 → Fin 3 → Rat))

/-- Overwrite one entry of a matrix (an assignment m[i][j] = v). -/
def setEntry (m : Matrix3) (i j : Fin 3) (v : Rat) : Matrix3 :=
  fun a b => if a = i ∧ b = j then v else m a b

/-- The iteration order of the box-comparison loop of
pme_gpu_prepare_computation: for i in 0..DIM-1, for j in 0..i. -/
def lowerTriIdx : List (Fin 3 × Fin 3) :=
  [(0, 0), (1, 0), (1, 1), (2, 0), (2, 1), (2, 2)]

/-- One iteration of the box-comparison loop: accumulate
shouldUpdateBox |= previousBox[i][j] != box[i][j], then overwrite
previousBox[i][j] = box[i][j]. -/
def boxScanStep (box : Matrix3) (st : Matrix3 × Bool) (p : Fin 3 × Fin 3) : Matrix3 × Bool :=
  (setEntry st.1 p.1 p.2 (box p.1 p.2), st.2 || decide (st.1 p.1 p.2 ≠ box p.1 p.2))

/-- The whole box-comparison loop of pme_gpu_prepare_computation, returning
the updated persisted box and the shouldUpdateBox flag. -/
def boxScan (previousBox box : Matrix3) : Matrix3 × Bool :=
  lowerTriIdx.foldl (boxScanStep box) (previousBox, false)

/-- The observable result of pme_gpu_prepare_computation: the settings flag
copied from the step workload, the persisted box after the comparison loop,
whether pme_gpu_update_input_box was invoked (the reciprocal-box recompute
on the device), and whether the host-side reciprocal box and volume were
also recomputed. -/
structure PrepareResult where
  useGpuForceReduction : Bool
  previousBox : Matrix3
  updatedDeviceBox : Bool
  hostRecipRecomputed : Bool

/-- The pme_gpu_prepare_computation entry point: copies
stepWork.useGpuPmeFReduction into the settings, runs the box-comparison
loop, and when haveDynamicBox or shouldUpdateBox holds pushes the box to the
device and, if the solve stage is host-executed, recomputes the reciprocal
box and volume on the host. -/
def pme_gpu_prepare_computation (settings : PmeGpuSettings) (previousBox : Matrix3)
    (box : Matrix3) (stepWork : StepWorkload) : PrepareResult :=
  let scan := boxScan previousBox box
  let shouldUpdateBox := scan.2
  let trigger := stepWork.haveDynamicBox || shouldUpdateBox
  { useGpuForceReduction := stepWork.useGpuPmeFReduction
    previousBox := scan.1
    updatedDeviceBox := trigger
    hostRecipRecomputed := trigger && !settings.performGPUSolve }

/-- The per-step result bundle (PmeOutput). -/
structure PmeOutput where
  forces_ : List RVec
  coulombVirial_ : Matrix3
  coulombEnergy_ : Rat
  coulombDvdl_ : Rat
  haveForceOutput_ : Bool

/-- The abstract device-resident results of the completed step: what the
output fetch would read back, as a function of the lambda weighting factor
it is given. -/
structure DeviceState where
  gatheredForces : Rat → List RVec
  energy : Rat → Rat
  virial : Rat → Matrix3
  dvdl : Rat → Rat

/-- Modelled from the spec: pme_gpu_getOutput is implemented in
pme_gpu_internal.cpp, which is not among the inspected sources. Per the
output-fetch contract of the spec it retrieves energy, virial and dvdl only
if computeEnergyAndVirial, retrieves forces only if the force reduction is
host-side, and sets haveForceOutput to the negation of
useGpuForceReduction, all weighted by the given lambda factor. -/
def pme_gpu_getOutput (dev : DeviceState) (useGpuForceReduction : Bool)
    (computeEnergyAndVirial : Bool) (lambdaQ : Rat) : PmeOutput :=
  { forces_ := if !useGpuForceReduction then dev.gatheredForces lambdaQ else []
    coulombVirial_ := if computeEnergyAndVirial then dev.virial lambdaQ else fun _ _ => 0
    coulombEnergy_ := if computeEnergyAndVirial then dev.energy lambdaQ else 0
    coulombDvdl_ := if computeEnergyAndVirial then dev.dvdl lambdaQ else 0
    haveForceOutput_ := !useGpuForceReduction }

/-- The fields of gmx_pme_t and pme-gpu state that the completion paths
read. -/
structure PmeGpuAll where
  settings : PmeGpuSettings
  ngrids : Nat
  dev : DeviceState

/-- The flag computed identically in pme_gpu_launch_complex_transforms,
pme_gpu_try_finish_task and pme_gpu_wait_and_reduce:
computeEnergy || computeVirial (there is no support for computing energy
without virial or vice versa). -/
def computeEnergyAndVirialOf (stepWork : StepWorkload) : Bool :=
  stepWork.computeEnergy || stepWork.computeVirial

/-- The lambda factor handed to pme_gpu_getOutput by both completion paths:
lambdaQ when ngrids is greater than 1, the constant 1.0 otherwise. -/
def pmeLambdaFactor (ngrids : Nat) (lambdaQ : Rat) : Rat :=
  if ngrids > 1 then lambdaQ else 1

/-- Pointwise sum of two 3x3 matrices (addVirialContribution). -/
def addMatrix3 (a b : Matrix3) : Matrix3 := fun i j => a i j + b i j

/-- The sum_forces helper: f[i] += forceToAdd[i] for every index of
forceToAdd. -/
def sum_forces : List RVec → List RVec → List RVec
  | f, [] => f
  | [], _ :: _ => []
  | x :: f, y :: add => (x + y) :: sum_forces f add

/-- The engine accumulators the reduction writes: the destination force
array, the destination virial, the Coulomb reciprocal-space energy term and
the linear Coulomb dvdl accumulator. -/
structure Accumulators where
  force : List RVec
  virial : Matrix3
  coulombRecipEnergy : Rat
  dvdlCoul : Rat

/-- The pme_gpu_reduce_outputs helper: under the single
computeEnergyAndVirial flag adds the virial contribution, the Coulomb
reciprocal energy and the Coulomb dvdl into the accumulators; if the output
carries forces, sums them into the destination force array. -/
def pme_gpu_reduce_outputs (computeEnergyAndVirial : Bool) (output : PmeOutput)
    (acc : Accumulators) : Accumulators :=
  let acc1 :=
    if computeEnergyAndVirial then
      { acc with
        virial := addMatrix3 acc.virial output.coulombVirial_
        coulombRecipEnergy := acc.coulombRecipEnergy + output.coulombEnergy_
        dvdlCoul := acc.dvdlCoul + output.coulombDvdl_ }
    else acc
  if output.haveForceOutput_ then { acc1 with force := sum_forces acc1.force output.forces_ }
  else acc1

/-- Modelled from the spec: the gather kernel of pme_gpu_internal.cpp (not
among the inspected sources) accumulates forces in place into the shared
device buffer precisely when useGpuForceReduction is set. -/
def deviceForceAccumulation (settings : PmeGpuSettings) : Bool :=
  settings.useGpuForceReduction

/-- The host-side force summation of pme_gpu_reduce_outputs runs iff the
fetched output carries forces. -/
def hostForceReduction (output : PmeOutput) : Bool :=
  output.haveForceOutput_

/-- The observable result of pme_gpu_wait_finish_task: whether
pme_gpu_synchronize was called, and the fetched output. -/
structure WaitFinishResult where
  synchronized : Bool
  output : PmeOutput

/-- The pme_gpu_wait_finish_task entry point: synchronizes the stream only
when the force reduction is not on the GPU or the energy and virial are
computed, then fetches the output with the conditional lambda factor. -/
def pme_gpu_wait_finish_task (pme : PmeGpuAll) (computeEnergyAndVirial : Bool)
    (lambdaQ : Rat) : WaitFinishResult :=
  { synchronized := !pme.settings.useGpuForceReduction || computeEnergyAndVirial
    output := pme_gpu_getOutput pme.dev pme.settings.useGpuForceReduction
      computeEnergyAndVirial (pmeLambdaFactor pme.ngrids lambdaQ) }

/-- The pme_gpu_wait_and_reduce entry point: computes computeEnergyAndVirial
from the step workload, calls pme_gpu_wait_finish_task (itself passing the
conditional lambda factor once more, which is idempotent) and reduces the
fetched output into the accumulators. -/
def pme_gpu_wait_and_reduce (pme : PmeGpuAll) (stepWork : StepWorkload)
    (acc : Accumulators) (lambdaQ : Rat) : WaitFinishResult × Accumulators :=
  let computeEnergyAndVirial := computeEnergyAndVirialOf stepWork
  let r := pme_gpu_wait_finish_task pme computeEnergyAndVirial
    (pmeLambdaFactor pme.ngrids lambdaQ)
  (r, pme_gpu_reduce_outputs computeEnergyAndVirial r.output acc)

/-- The observable result of pme_gpu_try_finish_task: the returned done
flag, whether pme_gpu_synchronize was called, the fetched output if any, and
the accumulators after the call. -/
structure TryFinishResult where
  done : Bool
  synchronized : Bool
  fetchedOutput : Option PmeOutput
  acc : Accumulators

/-- The pme_gpu_try_finish_task entry point. The entry assertion that the
GPU force reduction is not active on this path is modelled by returning
none. The compile-time platform constant c_streamQuerySupported and the
result of pme_gpu_stream_query are inputs. In Check mode with the stream
query supported, an incomplete stream yields an immediate early return with
no fetch, no synchronization and untouched accumulators; otherwise the
stream is synchronized unless the successful query already proved
completion, and the output is fetched and reduced. -/
def pme_gpu_try_finish_task (pme : PmeGpuAll) (stepWork : StepWorkload)
    (acc : Accumulators) (lambdaQ : Rat) (completionKind : GpuTaskCompletion)
    (streamQuerySupported streamDone : Bool) : Option TryFinishResult :=
  if pme.settings.useGpuForceReduction then none
  else
    let checkPath := decide (completionKind = GpuTaskCompletion.Check) && streamQuerySupported
    if checkPath && !streamDone then some ⟨false, false, none, acc⟩
    else
      let needToSynchronize := !checkPath
      let computeEnergyAndVirial := computeEnergyAndVirialOf stepWork
      let output := pme_gpu_getOutput pme.dev pme.settings.useGpuForceReduction
        computeEnergyAndVirial (pmeLambdaFactor pme.ngrids lambdaQ)
      some ⟨true, needToSynchronize, some output,
        pme_gpu_reduce_outputs computeEnergyAndVirial output acc⟩

/-- Operations of the pipeline: device launches enqueued on the single GPU
stream, host-threaded fallback executions, and the host wait on the spread
grid. -/
inductive PipelineOp
  | gpuFft (dir : FftDir) (gridIndex : Nat)
  | hostFft (dir : FftDir) (gridIndex : Nat)
  | gpuSolve (gridIndex : Nat) (gridOrdering : GridOrdering) (computeEnergyAndVirial : Bool)
  | hostSolve (gridIndex : Nat) (computeEnergyAndVirial : Bool)
  | gpuSpread (lambdaQ : Rat)
  | gpuGather (lambdaQ : Rat)
  | syncSpreadGrid
  deriving DecidableEq

/-- The parallel_3dfft_execute_gpu_wrapper helper: the GPU FFT when
performGPUFFT, otherwise the host-threaded FFT. -/
def parallel_3dfft_execute_gpu_wrapper (settings : PmeGpuSettings) (gridIndex : Nat)
    (dir : FftDir) : List PipelineOp :=
  if settings.performGPUFFT then [PipelineOp.gpuFft dir gridIndex]
  else [PipelineOp.hostFft dir gridIndex]

/-- The grid ordering handed to pme_gpu_solve: YZX under a spatial
decomposition, XYZ otherwise. -/
def solveGridOrdering (useDecomposition : Bool) : GridOrdering :=
  if useDecomposition then GridOrdering.YZX else GridOrdering.XYZ

/-- The pme_gpu_launch_complex_transforms entry point: waits for the spread
grid when the FFT is host-executed, then for each grid runs the forward FFT,
the solve (on the device with the selected grid ordering when
performGPUSolve, otherwise the host-threaded YZX solve) and the inverse FFT.
Returns the extended trace and the computeEnergyAndVirial flag it used. -/
def pme_gpu_launch_complex_transforms (settings : PmeGpuSettings) (ngrids : Nat)
    (stepWork : StepWorkload) (trace : List PipelineOp) : List PipelineOp × Bool :=
  let computeEnergyAndVirial := computeEnergyAndVirialOf stepWork
  let pre := if !settings.performGPUFFT then [PipelineOp.syncSpreadGrid] else []
  let perGrid : Nat → List PipelineOp := fun gridIndex =>
    parallel_3dfft_execute_gpu_wrapper settings gridIndex FftDir.realToComplex
      ++ (if settings.performGPUSolve then
            [PipelineOp.gpuSolve gridIndex (solveGridOrdering settings.useDecomposition)
              computeEnergyAndVirial]
          else [PipelineOp.hostSolve gridIndex computeEnergyAndVirial])
      ++ parallel_3dfft_execute_gpu_wrapper settings gridIndex FftDir.complexToReal
  (trace ++ pre ++ (List.range ngrids).flatMap perGrid, computeEnergyAndVirial)

/-- The pme_gpu_launch_gather entry point: asserts the GPU run is active,
returns without launching when performGPUGather is off, otherwise enqueues
the gather. -/
def pme_gpu_launch_gather (active : Bool) (settings : PmeGpuSettings)
    (trace : List PipelineOp) (lambdaQ : Rat) : Option (List PipelineOp) :=
  if !active then none
  else if !settings.performGPUGather then some trace
  else some (trace ++ [PipelineOp.gpuGather lambdaQ])

/-- The grid-count assertion of pme_gpu_launch_spread:
ngrids == 1 || (ngrids == 2 && bFEP_q). -/
def spreadGridCountAssert (ngrids : Nat) (bFEP_q : Bool) : Bool :=
  ngrids == 1 || (ngrids == 2 && bFEP_q)

/-- The pme_gpu_launch_spread entry point: asserts the GPU run is active,
Coulomb PME is enabled and the grid count is consistent with the FEP
setting (a failed assertion terminates the process, modelled as none), then
enqueues the spread. -/
def pme_gpu_launch_spread (active doCoulomb : Bool) (ngrids : Nat) (bFEP_q : Bool)
    (trace : List PipelineOp) (lambdaQ : Rat) : Option (List PipelineOp) :=
  if !active then none
  else if !doCoulomb then none
  else if !spreadGridCountAssert ngrids bFEP_q then none
  else some (trace ++ [PipelineOp.gpuSpread lambdaQ])

/-- The fields of gmx_pme_t that the null-safe accessors read: the run mode
and abstract handles for the device-side pointers of the gpu member. A
missing value models a null gmx_pme_t pointer. -/
structure GmxPme where
  runMode : PmeRunMode
  kernelparamForces : Nat
  forcesReadySynchronizer : Nat

/-- The pme_gpu_active helper:
(pme != nullptr) && (pme->runMode != PmeRunMode::CPU). -/
def pme_gpu_active : Option GmxPme → Bool
  | none => false
  | some pme => decide (pme.runMode ≠ PmeRunMode.CPU)

/-- The pme_gpu_get_device_f accessor: nullptr when pme is null or PME is
not active on the GPU, otherwise the device force buffer handle. -/
def pme_gpu_get_device_f (pme : Option GmxPme) : Option Nat :=
  if pme.isNone || !pme_gpu_active pme then none
  else pme.map fun p => p.kernelparamForces

/-- The pme_gpu_get_f_ready_synchronizer accessor: nullptr when pme is null
or PME is not active on the GPU, otherwise the forces-ready event handle. -/
def pme_gpu_get_f_ready_synchronizer (pme : Option GmxPme) : Option Nat :=
  if pme.isNone || !pme_gpu_active pme then none
  else pme.map fun p => p.forcesReadySynchronizer

/-- The pme_gpu_get_block_size accessor: 0 when pme is null or PME is not
active on the GPU, otherwise the atom data block size (the value of
pme_gpu_get_atom_data_block_size, passed in because it lives outside the
inspected sources). -/
def pme_gpu_get_block_size (atomDataBlockSize : Nat) (pme : Option GmxPme) : Nat :=
  if pme.isNone || !pme_gpu_active pme then 0 else atomDataBlockSize

/-- Example settings value used to instantiate witnesses. -/
def exSettings : PmeGpuSettings :=
  { performGPUFFT := true
    performGPUSolve := true
    performGPUGather := true
    useGpuForceReduction := false
    useDecomposition := false }

/-- Example settings with an active spatial decomposition. -/
def exSettingsDecomp : PmeGpuSettings :=
  { performGPUFFT := true
    performGPUSolve := true
    performGPUGather := true
    useGpuForceReduction := false
    useDecomposition := true }

/-- Example box used to instantiate witnesses. -/
def exBox : Matrix3 := fun _ _ => 1

/-- Example step workload used to instantiate witnesses. -/
def exStepWork : StepWorkload :=
  { haveDynamicBox := false
    computeEnergy := true
    computeVirial := false
    useGpuPmeFReduction := false }

/-- Example device state whose read-backs are all zero. -/
def exDev : DeviceState :=
  { gatheredForces := fun _ => []
    energy := fun _ => 0
    virial := fun _ => fun _ _ => 0
    dvdl := fun _ => 0 }

/-- Example pme state with host-side force reduction. -/
def exPme : PmeGpuAll :=
  { settings := exSettings, ngrids := 1, dev := exDev }

/-- Example pme state with the GPU force reduction active. -/
def exPmeGpuRed : PmeGpuAll :=
  { settings :=
      { performGPUFFT := true
        performGPUSolve := true
        performGPUGather := true
        useGpuForceReduction := true
        useDecomposition := false }
    ngrids := 1
    dev := exDev }

/-- Example empty accumulators. -/
def exAcc : Accumulators :=
  { force := [], virial := fun _ _ => 0, coulombRecipEnergy := 0, dvdlCoul := 0 }

theorem boxScan_fst (prev box : Matrix3) (i j : Fin 3) (h : j ≤ i) :
    (boxScan prev box).1 i j = box i j := by
  fin_cases i <;> fin_cases j <;>
    simp_all [boxScan, lowerTriIdx, List.foldl, boxScanStep, setEntry, Fin.ext_iff, Fin.le_def]

theorem boxScan_snd_true_iff (prev box : Matrix3) :
    (boxScan prev box).2 = true ↔
      ∃ i j : Fin 3, j ≤ i ∧ prev i j ≠ box i j := by
  simp [boxScan, lowerTriIdx, boxScanStep, setEntry, Fin.ext_iff]
  constructor
  · intro h
    rcases h with ((((h | h) | h) | h) | h) | h
    · exact ⟨0, 0, by decide, h⟩
    · exact ⟨1, 0, by decide, h⟩
    · exact ⟨1, 1, by decide, h⟩
    · exact ⟨2, 0, by decide, h⟩
    · exact ⟨2, 1, by decide, h⟩
    · exact ⟨2, 2, by decide, h⟩
  · rintro ⟨a, b, hle, hne⟩
    fin_cases a <;> fin_cases b <;> simp_all

theorem prepare_previousBox (s : PmeGpuSettings) (prev box : Matrix3) (w : StepWorkload)
    (i j : Fin 3) (h : j ≤ i) :
    (pme_gpu_prepare_computation s prev box w).previousBox i j = box i j :=
  boxScan_fst prev box i j h

theorem prepare_trigger_iff (s : PmeGpuSettings) (prev box : Matrix3) (w : StepWorkload) :
    (pme_gpu_prepare_computation s prev box w).updatedDeviceBox = true ↔
      (w.haveDynamicBox = true ∨ ∃ i j : Fin 3, j ≤ i ∧ prev i j ≠ box i j) := by
  simp only [pme_gpu_prepare_computation, Bool.or_eq_true]
  rw [boxScan_snd_true_iff]

/-- Claim C2: every call to pme_gpu_prepare_computation compares the six
lower-triangular entries of the new box against the persisted previous box
for exact inequality and overwrites the persisted entries with the new box
regardless of whether recompute triggers; the reciprocal-box recompute
triggers iff haveDynamicBox is set or some compared entry differs; hence a
second call with the same box and haveDynamicBox off does not recompute,
while a second call with a box differing in a lower-triangular entry does. -/
theorem pme_gpu_prepare_computation_box_tracking :
    (∀ (s : PmeGpuSettings) (prev box : Matrix3) (w : StepWorkload) (i j : Fin 3), j ≤ i →
      (pme_gpu_prepare_computation s prev box w).previousBox i j = box i j) ∧
    (∀ (s : PmeGpuSettings) (prev box : Matrix3) (w : StepWorkload),
      (pme_gpu_prepare_computation s prev box w).updatedDeviceBox = true ↔
        (w.haveDynamicBox = true ∨ ∃ i j : Fin 3, j ≤ i ∧ prev i j ≠ box i j)) ∧
    (∀ (s : PmeGpuSettings) (prev box : Matrix3) (w1 w2 : StepWorkload),
      w2.haveDynamicBox = false →
      (pme_gpu_prepare_computation s
        (pme_gpu_prepare_computation s prev box w1).previousBox box w2).updatedDeviceBox
        = false) ∧
    (∀ (s : PmeGpuSettings) (prev b1 b2 : Matrix3) (w1 w2 : StepWorkload) (i j : Fin 3),
      j ≤ i → b1 i j ≠ b2 i j →
      (pme_gpu_prepare_computation s
        (pme_gpu_prepare_computation s prev b1 w1).previousBox b2 w2).updatedDeviceBox
        = true) := by
  refine ⟨fun s prev box w i j h => prepare_previousBox s prev box w i j h, ?_, ?_, ?_⟩
  · exact fun s prev box w => prepare_trigger_iff s prev box w
  · intro s prev box w1 w2 hdyn
    rw [← Bool.not_eq_true, prepare_trigger_iff]
    rintro (h | ⟨i, j, hle, hne⟩)
    · rw [hdyn] at h
      exact Bool.false_ne_true h
    · exact hne (prepare_previousBox s prev box w1 i j hle)
  · intro s prev b1 b2 w1 w2 i j hle hne
    rw [prepare_trigger_iff]
    refine Or.inr ⟨i, j, hle, ?_⟩
    rw [prepare_previousBox s prev b1 w1 i j hle]
    exact hne

/-- Witness for claim C2: with a concrete constant box and dynamic-box off,
the second of two identical prepare calls does not trigger the recompute. -/
theorem pme_gpu_prepare_computation_box_tracking_witness :
    (pme_gpu_prepare_computation exSettings
      (pme_gpu_prepare_computation exSettings exBox exBox exStepWork).previousBox
      exBox exStepWork).updatedDeviceBox = false :=
  pme_gpu_prepare_computation_box_tracking.2.2.1 exSettings exBox exBox exStepWork exStepWork rfl

/-- Counterexample to claim C1: with the GPU force reduction active and
computeEnergyAndVirial false, pme_gpu_wait_finish_task does not synchronize
the stream, refuting the claimed unconditional synchronization for every
combination of the two flags. -/
theorem pme_gpu_wait_finish_task_not_unconditional :
    (pme_gpu_wait_finish_task exPmeGpuRed false 0).synchronized = false := by
  decide

/-- Claim C1 (amended): pme_gpu_wait_finish_task, as called from
pme_gpu_wait_and_reduce, synchronizes the GPU stream iff the force reduction
is not on the GPU or the energy and virial are computed, and in every case
it then performs the output fetch. -/
theorem pme_gpu_wait_finish_task_sync_condition :
    ∀ (pme : PmeGpuAll) (c : Bool) (l : Rat) (w : StepWorkload) (acc : Accumulators),
      ((pme_gpu_wait_finish_task pme c l).synchronized
          = (!pme.settings.useGpuForceReduction || c)) ∧
      ((pme_gpu_wait_finish_task pme c l).output
          = pme_gpu_getOutput pme.dev pme.settings.useGpuForceReduction c
              (pmeLambdaFactor pme.ngrids l)) ∧
      ((pme_gpu_wait_and_reduce pme w acc l).1
          = pme_gpu_wait_finish_task pme (computeEnergyAndVirialOf w)
              (pmeLambdaFactor pme.ngrids l)) :=
  fun _ _ _ _ _ => ⟨rfl, rfl, rfl⟩

/-- Witness for claim C1 (amended): with host-side force reduction and no
energy request the block path does synchronize. -/
theorem pme_gpu_wait_finish_task_sync_condition_witness :
    (pme_gpu_wait_finish_task exPme false 0).synchronized
      = (!exPme.settings.useGpuForceReduction || false) :=
  (pme_gpu_wait_finish_task_sync_condition exPme false 0 exStepWork exAcc).1

/-- Claim C3: every fetched output has haveForceOutput equal to the negation
of useGpuForceReduction, and exactly one of the device in-place force
accumulation and the host-side summation of pme_gpu_reduce_outputs executes:
the host summation runs iff haveForceOutput is true. -/
theorem pme_gpu_force_reduction_exclusive :
    ∀ (dev : DeviceState) (s : PmeGpuSettings) (c : Bool) (l : Rat) (acc : Accumulators),
      ((pme_gpu_getOutput dev s.useGpuForceReduction c l).haveForceOutput_
          = !s.useGpuForceReduction) ∧
      (Bool.xor (deviceForceAccumulation s)
          (hostForceReduction (pme_gpu_getOutput dev s.useGpuForceReduction c l)) = true) ∧
      ((pme_gpu_reduce_outputs c (pme_gpu_getOutput dev s.useGpuForceReduction c l) acc).force
          = if hostForceReduction (pme_gpu_getOutput dev s.useGpuForceReduction c l)
            then sum_forces acc.force (pme_gpu_getOutput dev s.useGpuForceReduction c l).forces_
            else acc.force) := by
  intro dev s c l acc
  refine ⟨rfl, ?_, ?_⟩
  · cases hu : s.useGpuForceReduction <;>
      simp [deviceForceAccumulation, hostForceReduction, pme_gpu_getOutput, hu]
  · cases hu : s.useGpuForceReduction <;> cases hc : c <;>
      simp [pme_gpu_reduce_outputs, pme_gpu_getOutput, hostForceReduction, hu]

/-- Claim C4: in Check mode with the stream query supported and the query
reporting incomplete work, pme_gpu_try_finish_task returns false
immediately, performs no synchronization and no output fetch, and leaves
the accumulators untouched. -/
theorem pme_gpu_try_finish_task_early_return :
    ∀ (pme : PmeGpuAll) (w : StepWorkload) (acc : Accumulators) (l : Rat),
      pme.settings.useGpuForceReduction = false →
      pme_gpu_try_finish_task pme w acc l GpuTaskCompletion.Check true false
        = some ⟨false, false, none, acc⟩ := by
  intro pme w acc l h
  simp [pme_gpu_try_finish_task, h]

/-- Witness for claim C4: a concrete incomplete poll returns not-done with
everything untouched. -/
theorem pme_gpu_try_finish_task_early_return_witness :
    pme_gpu_try_finish_task exPme exStepWork exAcc 0 GpuTaskCompletion.Check true false
      = some ⟨false, false, none, exAcc⟩ :=
  pme_gpu_try_finish_task_early_return exPme exStepWork exAcc 0 rfl

/-- Counterexample to claim C5: with a spatial decomposition active the
device solve launch passes GridOrdering.YZX, not the claimed Z-Y-X
ordering. -/
theorem pme_gpu_solve_ordering_not_zyx :
    ((pme_gpu_launch_complex_transforms exSettingsDecomp 1 exStepWork []).1
        = [PipelineOp.gpuFft FftDir.realToComplex 0,
           PipelineOp.gpuSolve 0 GridOrdering.YZX true,
           PipelineOp.gpuFft FftDir.complexToReal 0]) ∧
      GridOrdering.YZX ≠ GridOrdering.ZYX := by
  constructor
  · decide
  · decide

/-- Claim C5 (amended): in the device-executed solve the grid ordering
passed to the kernel is Y-Z-X (GridOrdering::YZX) when a spatial
decomposition is active and X-Y-Z otherwise; every solve launch issued by
pme_gpu_launch_complex_transforms carries exactly that ordering. -/
theorem pme_gpu_solve_ordering_selection :
    (solveGridOrdering true = GridOrdering.YZX) ∧
    (solveGridOrdering false = GridOrdering.XYZ) ∧
    (∀ (s : PmeGpuSettings) (n : Nat) (w : StepWorkload) (g : Nat)
        (ord : GridOrdering) (c : Bool),
      PipelineOp.gpuSolve g ord c ∈ (pme_gpu_launch_complex_transforms s n w []).1 →
      ord = solveGridOrdering s.useDecomposition) ∧
    (∀ (s : PmeGpuSettings) (n : Nat) (w : StepWorkload),
      s.performGPUSolve = true → 0 < n →
      PipelineOp.gpuSolve 0 (solveGridOrdering s.useDecomposition)
          (computeEnergyAndVirialOf w)
        ∈ (pme_gpu_launch_complex_transforms s n w []).1) := by
  refine ⟨rfl, rfl, ?_, ?_⟩
  · intro s n w g ord c hmem
    simp only [pme_gpu_launch_complex_transforms, parallel_3dfft_execute_gpu_wrapper,
      List.nil_append, List.mem_append, List.mem_flatMap, List.mem_range] at hmem
    rcases hmem with hpre | ⟨g2, hg2, hin⟩
    · cases hf : s.performGPUFFT <;> simp [hf] at hpre
    · cases hf : s.performGPUFFT <;> cases hs : s.performGPUSolve <;>
        simp [hf, hs] at hin <;> simp_all
  · intro s n w hsolve hn
    simp only [pme_gpu_launch_complex_transforms, parallel_3dfft_execute_gpu_wrapper,
      List.nil_append, List.mem_append, List.mem_flatMap, List.mem_range]
    refine Or.inr ⟨0, hn, ?_⟩
    cases hf : s.performGPUFFT <;> simp [hf, hsolve]

/-- Witness for claim C5 (amended): the one solve launch of a concrete
decomposed single-grid step carries the YZX ordering. -/
theorem pme_gpu_solve_ordering_selection_witness :
    PipelineOp.gpuSolve 0 (solveGridOrdering exSettingsDecomp.useDecomposition)
        (computeEnergyAndVirialOf exStepWork)
      ∈ (pme_gpu_launch_complex_transforms exSettingsDecomp 1 exStepWork []).1 :=
  pme_gpu_solve_ordering_selection.2.2.2 exSettingsDecomp 1 exStepWork rfl (by decide)

/-- Claim C6: both completion paths hand pme_gpu_getOutput the factor
pmeLambdaFactor ngrids lambdaQ, which equals the caller-supplied lambdaQ
when two FEP grids are present and the constant 1.0 otherwise, so with a
single grid the fetched output is identical for every value of lambdaQ. -/
theorem pme_gpu_output_lambda_factor :
    (∀ (pme : PmeGpuAll) (c : Bool) (l : Rat),
      (pme_gpu_wait_finish_task pme c l).output
        = pme_gpu_getOutput pme.dev pme.settings.useGpuForceReduction c
            (pmeLambdaFactor pme.ngrids l)) ∧
    (∀ (pme : PmeGpuAll) (w : StepWorkload) (acc : Accumulators) (l : Rat)
        (sup done : Bool),
      pme.settings.useGpuForceReduction = false →
      pme_gpu_try_finish_task pme w acc l GpuTaskCompletion.Wait sup done
        = some ⟨true, true,
            some (pme_gpu_getOutput pme.dev false (computeEnergyAndVirialOf w)
              (pmeLambdaFactor pme.ngrids l)),
            pme_gpu_reduce_outputs (computeEnergyAndVirialOf w)
              (pme_gpu_getOutput pme.dev false (computeEnergyAndVirialOf w)
                (pmeLambdaFactor pme.ngrids l)) acc⟩) ∧
    (∀ (n : Nat) (l : Rat), 1 < n → pmeLambdaFactor n l = l) ∧
    (∀ (n : Nat) (l : Rat), ¬1 < n → pmeLambdaFactor n l = 1) ∧
    (∀ (pme : PmeGpuAll) (c : Bool) (l lp : Rat), pme.ngrids = 1 →
      pme_gpu_wait_finish_task pme c l = pme_gpu_wait_finish_task pme c lp) := by
  refine ⟨fun _ _ _ => rfl, ?_, ?_, ?_, ?_⟩
  · intro pme w acc l sup done h
    simp [pme_gpu_try_finish_task, h]
  · intro n l h
    simp [pmeLambdaFactor, h]
  · intro n l h
    simp [pmeLambdaFactor, h]
  · intro pme c l lp h
    simp [pme_gpu_wait_finish_task, pmeLambdaFactor, h]

/-- Witness for claim C6: with one grid the block-path results for two
different lambda values coincide. -/
theorem pme_gpu_output_lambda_factor_witness :
    pme_gpu_wait_finish_task exPme true 0 = pme_gpu_wait_finish_task exPme true 7 :=
  pme_gpu_output_lambda_factor.2.2.2.2 exPme true 0 7 rfl

/-- Claim C7: each entry point computes computeEnergyAndVirial as
computeEnergy OR computeVirial, and pme_gpu_reduce_outputs updates the
virial, the Coulomb reciprocal energy and the Coulomb dvdl together under
that single flag: all three are untouched when the flag is off and all
three accumulate their contribution when it is on. -/
theorem pme_gpu_computeEnergyAndVirial_coupling :
    (∀ w : StepWorkload,
      computeEnergyAndVirialOf w = (w.computeEnergy || w.computeVirial)) ∧
    (∀ (s : PmeGpuSettings) (n : Nat) (w : StepWorkload) (tr : List PipelineOp),
      (pme_gpu_launch_complex_transforms s n w tr).2 = computeEnergyAndVirialOf w) ∧
    (∀ (pme : PmeGpuAll) (w : StepWorkload) (acc : Accumulators) (l : Rat),
      (pme_gpu_wait_and_reduce pme w acc l).2
        = pme_gpu_reduce_outputs (computeEnergyAndVirialOf w)
            (pme_gpu_wait_and_reduce pme w acc l).1.output acc) ∧
    (∀ (out : PmeOutput) (acc : Accumulators),
      (pme_gpu_reduce_outputs false out acc).virial = acc.virial ∧
      (pme_gpu_reduce_outputs false out acc).coulombRecipEnergy = acc.coulombRecipEnergy ∧
      (pme_gpu_reduce_outputs false out acc).dvdlCoul = acc.dvdlCoul) ∧
    (∀ (out : PmeOutput) (acc : Accumulators),
      (pme_gpu_reduce_outputs true out acc).virial = addMatrix3 acc.virial out.coulombVirial_ ∧
      (pme_gpu_reduce_outputs true out acc).coulombRecipEnergy
          = acc.coulombRecipEnergy + out.coulombEnergy_ ∧
      (pme_gpu_reduce_outputs true out acc).dvdlCoul = acc.dvdlCoul + out.coulombDvdl_) := by
  refine ⟨fun _ => rfl, fun _ _ _ _ => rfl, fun _ _ _ _ => rfl, ?_, ?_⟩
  · intro out acc
    cases hf : out.haveForceOutput_ <;> simp [pme_gpu_reduce_outputs, hf]
  · intro out acc
    cases hf : out.haveForceOutput_ <;> simp [pme_gpu_reduce_outputs, hf]

/-- Claim C8: when performGPUGather is false pme_gpu_launch_gather returns
without launching anything and without modifying the trace; when it is true
the gather launch is enqueued. -/
theorem pme_gpu_launch_gather_skip_or_launch :
    ∀ (active : Bool) (s : PmeGpuSettings) (tr : List PipelineOp) (l : Rat),
      active = true →
      (s.performGPUGather = false → pme_gpu_launch_gather active s tr l = some tr) ∧
      (s.performGPUGather = true →
        pme_gpu_launch_gather active s tr l = some (tr ++ [PipelineOp.gpuGather l])) := by
  intro active s tr l hact
  constructor
  · intro hg
    simp [pme_gpu_launch_gather, hact, hg]
  · intro hg
    simp [pme_gpu_launch_gather, hact, hg]

/-- Witness for claim C8: a concrete active call with the gather enabled
enqueues exactly the gather launch. -/
theorem pme_gpu_launch_gather_skip_or_launch_witness :
    pme_gpu_launch_gather true exSettings [] 0 = some [PipelineOp.gpuGather 0] :=
  (pme_gpu_launch_gather_skip_or_launch true exSettings [] 0 rfl).2 rfl

/-- Claim C9: pme_gpu_launch_spread accepts exactly the grid counts 1, and
2 with dual-FEP-Coulomb requested; every other combination fails the
assertion (terminating the process), and under the stated precondition the
failure branch is unreachable and the spread is enqueued. -/
theorem pme_gpu_launch_spread_grid_assert :
    (∀ (n : Nat) (b : Bool),
      spreadGridCountAssert n b = true ↔ (n = 1 ∨ (n = 2 ∧ b = true))) ∧
    (∀ (active doCoulomb : Bool) (n : Nat) (b : Bool) (tr : List PipelineOp) (l : Rat),
      active = true → doCoulomb = true → (n = 1 ∨ (n = 2 ∧ b = true)) →
      pme_gpu_launch_spread active doCoulomb n b tr l
        = some (tr ++ [PipelineOp.gpuSpread l])) ∧
    (∀ (active doCoulomb : Bool) (n : Nat) (b : Bool) (tr : List PipelineOp) (l : Rat),
      ¬(n = 1 ∨ (n = 2 ∧ b = true)) →
      pme_gpu_launch_spread active doCoulomb n b tr l = none) := by
  have hiff : ∀ (n : Nat) (b : Bool),
      spreadGridCountAssert n b = true ↔ (n = 1 ∨ (n = 2 ∧ b = true)) := by
    intro n b
    cases b <;> simp [spreadGridCountAssert]
  refine ⟨hiff, ?_, ?_⟩
  · intro active doCoulomb n b tr l hact hcoul hpre
    have hassert : spreadGridCountAssert n b = true := (hiff n b).mpr hpre
    simp [pme_gpu_launch_spread, hact, hcoul, hassert]
  · intro active doCoulomb n b tr l hpre
    have hassert : spreadGridCountAssert n b = false := by
      rw [← Bool.not_eq_true]
      exact fun h => hpre ((hiff n b).mp h)
    cases active <;> cases doCoulomb <;> simp [pme_gpu_launch_spread, hassert]

/-- Witness for claim C9: the dual-FEP two-grid case passes the assertion
and enqueues the spread. -/
theorem pme_gpu_launch_spread_grid_assert_witness :
    pme_gpu_launch_spread true true 2 true [] 0 = some [PipelineOp.gpuSpread 0] :=
  pme_gpu_launch_spread_grid_assert.2.1 true true 2 true [] 0 rfl rfl (Or.inr ⟨rfl, rfl⟩)

/-- Claim C10: for a null pme pointer or a CPU run mode, pme_gpu_get_device_f
and pme_gpu_get_f_ready_synchronizer return nullptr and
pme_gpu_get_block_size returns 0, without asserting or dereferencing. -/
theorem pme_gpu_null_safe_accessors :
    (∀ k : Nat,
      pme_gpu_get_device_f none = none ∧
      pme_gpu_get_f_ready_synchronizer none = none ∧
      pme_gpu_get_block_size k none = 0) ∧
    (∀ (p : GmxPme) (k : Nat), p.runMode = PmeRunMode.CPU →
      pme_gpu_get_device_f (some p) = none ∧
      pme_gpu_get_f_ready_synchronizer (some p) = none ∧
      pme_gpu_get_block_size k (some p) = 0) := by
  constructor
  · intro k
    refine ⟨rfl, rfl, rfl⟩
  · intro p k h
    refine ⟨?_, ?_, ?_⟩ <;>
      simp [pme_gpu_get_device_f, pme_gpu_get_f_ready_synchronizer,
        pme_gpu_get_block_size, pme_gpu_active, h]

/-- Witness for claim C10: a concrete CPU-mode pme structure yields the null
results. -/
theorem pme_gpu_null_safe_accessors_witness :
    pme_gpu_get_device_f (some ⟨PmeRunMode.CPU, 5, 7⟩) = none ∧
    pme_gpu_get_f_ready_synchronizer (some ⟨PmeRunMode.CPU, 5, 7⟩) = none ∧
    pme_gpu_get_block_size 64 (some ⟨PmeRunMode.CPU, 5, 7⟩) = 0 :=
  pme_gpu_null_safe_accessors.2 ⟨PmeRunMode.CPU, 5, 7⟩ 64 rfl
